import Mathlib

/-!
Verification of the multi-profile authorization and session-resolution core of
the jooy app.  The embedding follows the SQL migrations under
`supabase/migrations/` (run in timestamp order: `billowing_mode` 2025-08-06,
`purple_fire` 2025-08-17 17:27, `cold_pond` 2025-08-17 17:28) and the client
code in `src/contexts/AuthContext.tsx`, which contains several historical
variants of the `AuthProvider` (referred to below as variant 1 through 4, in
file order).

Ids and timestamps are modelled as `Nat`; nullable columns as `Option`.
-/

namespace Jooy

/-- A row of the `student_profiles` table (columns used by the verified code:
`id`, `account_id`, `profile_name`, `last_accessed_at`, `is_active`). -/
structure StudentProfileRow where
  id : Nat
  account_id : Nat
  profile_name : String
  last_accessed_at : Option Nat
  is_active : Bool
deriving Repr, DecidableEq

/-- A row of the `accounts` table (formerly `profiles`); only the columns the
migration and bootstrap code read. -/
structure AccountRow where
  id : Nat
  full_name : Option String
deriving Repr, DecidableEq

/-- A row of a scoped-resource table (`documents`, `folders`, ...): a legacy
account reference `user_id` and the new `student_profile_id` reference. -/
structure ResourceRow where
  id : Nat
  user_id : Option Nat
  student_profile_id : Option Nat
deriving Repr, DecidableEq

/-- The parts of the database state the migration procedures touch.  The single
`resources` list stands uniformly for each scoped-resource table (the SQL
repeats the same `UPDATE` for all seven tables). -/
structure DB where
  accounts : List AccountRow
  profiles : List StudentProfileRow
  resources : List ResourceRow
deriving Repr, DecidableEq

/-- `is_student_profile_owner(profile_id)` as finally installed: the
`cold_pond` migration's `CREATE OR REPLACE` (identical in `purple_fire`) is the
last definition executed, so the effective predicate is
`EXISTS (SELECT 1 FROM student_profiles WHERE id = profile_id AND account_id = auth.uid())`
with no `is_active` condition.  `uid` is the caller (`auth.uid()`). -/
def is_student_profile_owner (profiles : List StudentProfileRow)
    (uid pid : Nat) : Bool :=
  profiles.any (fun sp => sp.id == pid && sp.account_id == uid)

/-- The earlier `billowing_mode` version of `is_student_profile_owner`, which
additionally required `is_active = TRUE`; it was later overwritten by the
`purple_fire` and `cold_pond` replacements. -/
def is_student_profile_owner_v1 (profiles : List StudentProfileRow)
    (uid pid : Nat) : Bool :=
  profiles.any (fun sp => sp.id == pid && sp.account_id == uid && sp.is_active)

/-- The `USING`/`WITH CHECK` expression of the `purple_fire` scoped-resource
policies ("Account owners can manage ... via student profiles"):
`CASE WHEN student_profile_id IS NOT NULL THEN is_student_profile_owner(student_profile_id)
      WHEN user_id IS NOT NULL THEN auth.uid() = user_id ELSE false END`. -/
def row_allowed (profiles : List StudentProfileRow) (uid : Nat)
    (r : ResourceRow) : Bool :=
  match r.student_profile_id with
  | some pid => is_student_profile_owner profiles uid pid
  | none =>
    match r.user_id with
    | some owner => uid == owner
    | none => false

end Jooy

namespace Jooy

/-- An inactive (soft-deleted) profile of account 7, used to separate the
installed ownership predicate from the spec's description of it. -/
def inactiveOwnProfile : StudentProfileRow :=
  { id := 1, account_id := 7, profile_name := "Student 1",
    last_accessed_at := none, is_active := false }

end Jooy

open Jooy

/-- C1, counterexample: the installed `is_student_profile_owner` (the
`cold_pond` replacement, the last one executed) returns `true` for a
soft-deleted (`is_active = false`) profile of the caller's own account, whereas
the claim requires `false` there. -/
theorem c1_counterexample :
    is_student_profile_owner [inactiveOwnProfile] 7 1 = true ∧
      inactiveOwnProfile.is_active = false := by
  decide

/-- C1, amended: the installed `is_student_profile_owner` returns `true` iff a
`student_profiles` row with the requested id exists for the caller's account,
with no condition on `is_active`; the earlier `billowing_mode` version is the
one that additionally demanded `is_active = true`. -/
theorem c1_owner_iff (ps : List StudentProfileRow) (uid pid : Nat) :
    (is_student_profile_owner ps uid pid = true ↔
      ∃ sp ∈ ps, sp.id = pid ∧ sp.account_id = uid) ∧
    (is_student_profile_owner_v1 ps uid pid = true ↔
      ∃ sp ∈ ps, sp.id = pid ∧ sp.account_id = uid ∧ sp.is_active = true) := by
  constructor
  · simp [is_student_profile_owner, List.any_eq_true, Bool.and_eq_true,
      beq_iff_eq]
  · simp [is_student_profile_owner_v1, List.any_eq_true, Bool.and_eq_true,
      beq_iff_eq, and_assoc]

/-- C2: the scoped-resource row policy allows the caller exactly when either
the row's `student_profile_id` is non-null and the ownership predicate holds
for it, or `student_profile_id` is null and `user_id` is non-null and equals
the caller's id; a row with both references null is always denied. -/
theorem c2_policy_characterization (ps : List StudentProfileRow) (uid : Nat)
    (r : ResourceRow) :
    (row_allowed ps uid r = true ↔
      ((∃ pid, r.student_profile_id = some pid ∧
          is_student_profile_owner ps uid pid = true) ∨
        (r.student_profile_id = none ∧ r.user_id = some uid))) ∧
    (r.student_profile_id = none → r.user_id = none →
      row_allowed ps uid r = false) := by
  constructor
  · cases hsp : r.student_profile_id with
    | some pid =>
      simp only [row_allowed, hsp, Option.some.injEq]
      constructor
      · intro h
        exact Or.inl ⟨pid, rfl, h⟩
      · rintro (⟨p', hp', h⟩ | ⟨hno, _⟩)
        · cases hp'
          exact h
        · exact absurd hno (by simp)
    | none =>
      cases hu : r.user_id with
      | some owner =>
        simp only [row_allowed, hsp, hu, Option.some.injEq, beq_iff_eq]
        constructor
        · intro h
          exact Or.inr ⟨trivial, h.symm⟩
        · rintro (⟨p', hp', _⟩ | ⟨_, howner⟩)
          · exact absurd hp' (by simp)
          · exact howner.symm
      | none =>
        simp only [row_allowed, hsp, hu]
        constructor
        · intro h
          exact absurd h (by simp)
        · rintro (⟨p', hp', _⟩ | ⟨_, hu'⟩)
          · exact absurd hp' (by simp)
          · exact absurd hu' (by simp)
  · intro h1 h2
    simp only [row_allowed, h1, h2]

namespace Jooy

/-! ## Inserting into `student_profiles`

The `student_profiles` table in force is the one `billowing_mode` creates
(the later `CREATE TABLE IF NOT EXISTS` statements are skipped): it carries
`CONSTRAINT unique_profile_name_per_account UNIQUE (account_id,
profile_name, is_active)`, `CHECK (length(trim(profile_name)) > 0)` and
`CHECK (length(profile_name) <= 50)`; `purple_fire` additionally installs
the `check_student_profile_limit` BEFORE INSERT trigger.  Every later insert
into the table — the cold_pond migration's included — is subject to these
guards, and a violation raises, aborting the enclosing statement. -/

theorem ite_true_of_eq_true {α : Sort _} (b : Bool) (x y : α) (h : b = true) :
    (if b then x else y) = x := by
  subst h
  rfl

theorem ite_false_of_eq_false {α : Sort _} (b : Bool) (x y : α)
    (h : b = false) :
    (if b then x else y) = y := by
  subst h
  rfl

/-- `purple_fire`'s `check_student_profile_limit` BEFORE INSERT trigger
condition: it raises iff `SELECT COUNT(*) FROM student_profiles WHERE
account_id = NEW.account_id` is already at least 10.  The count has no
`is_active` filter: soft-deleted rows count against the limit. -/
def check_student_profile_limit (profiles : List StudentProfileRow)
    (newP : StudentProfileRow) : Bool :=
  decide (10 ≤ (profiles.filter
    (fun p => p.account_id == newP.account_id)).length)

/-- The name CHECK constraints on `student_profiles`:
`length(trim(profile_name)) > 0` (the name holds a non-space character) and
`length(profile_name) <= 50`. -/
def validProfileName (s : String) : Bool :=
  s.data.any (fun c => c != ' ') && decide (s.data.length ≤ 50)

/-- Violation test for `unique_profile_name_per_account UNIQUE (account_id,
profile_name, is_active)`: an existing row carries the same triple. -/
def nameDuplicate (profiles : List StudentProfileRow)
    (newP : StudentProfileRow) : Bool :=
  profiles.any (fun p => p.account_id == newP.account_id &&
    p.profile_name == newP.profile_name && p.is_active == newP.is_active)

/-- One guarded `INSERT INTO student_profiles`: the BEFORE INSERT trigger
fires first, then the CHECK constraints, then the unique index; a violation
raises (modelled as `.error` with the Postgres message), otherwise the row
is appended. -/
def insertStudentProfile (profiles : List StudentProfileRow)
    (newP : StudentProfileRow) : Except String (List StudentProfileRow) :=
  if check_student_profile_limit profiles newP then
    .error "Maximum number of student profiles (10) reached for this account"
  else if !(validProfileName newP.profile_name) then
    .error "new row violates check constraint"
  else if nameDuplicate profiles newP then
    .error "duplicate key value violates unique constraint"
  else
    .ok (profiles ++ [newP])

theorem insertStudentProfile_ok_elim (ps : List StudentProfileRow)
    (newP : StudentProfileRow) (ps' : List StudentProfileRow)
    (h : insertStudentProfile ps newP = .ok ps') :
    ps' = ps ++ [newP] := by
  simp only [insertStudentProfile] at h
  cases h1 : check_student_profile_limit ps newP with
  | true =>
    rw [h1] at h
    simp at h
  | false =>
    rw [h1] at h
    cases h2 : validProfileName newP.profile_name with
    | false =>
      rw [h2] at h
      simp at h
    | true =>
      rw [h2] at h
      cases h3 : nameDuplicate ps newP with
      | true =>
        rw [h3] at h
        simp at h
      | false =>
        rw [h3] at h
        simp at h
        exact h.symm

theorem insertStudentProfile_error_of_dup (ps : List StudentProfileRow)
    (newP : StudentProfileRow) (h : nameDuplicate ps newP = true) :
    ∃ e, insertStudentProfile ps newP = .error e := by
  simp only [insertStudentProfile]
  cases h1 : check_student_profile_limit ps newP with
  | true => exact ⟨_, rfl⟩
  | false =>
    cases h2 : validProfileName newP.profile_name with
    | false => exact ⟨_, rfl⟩
    | true =>
      rw [h]
      exact ⟨_, rfl⟩

/-! ## Migration / compatibility layer

Both batch backfill procedures iterate over accounts; per account they
insert one default profile (the procedures differ in how the profile is
named and in which accounts they process) and then run, for each
scoped-resource table, `UPDATE t SET student_profile_id =
default_profile_id WHERE user_id = account.id AND student_profile_id IS
NULL`.  The insert is the guarded `insertStudentProfile`; an uncaught raise
aborts the whole invocation, whose transaction then rolls back, leaving the
pre-call state.  `gen_random_uuid()` is modelled by a fresh id strictly
larger than every existing profile id. -/

/-- Fresh profile id: one more than the largest id present (models
`gen_random_uuid()` producing an unused id). -/
def freshId (db : DB) : Nat :=
  db.profiles.foldl (fun m p => max m p.id) 0 + 1

/-- The default profile one iteration of the backfill loop tries to insert:
`INSERT INTO student_profiles (account_id, profile_name, last_accessed_at)
VALUES (a.id, nm a, now())`, with `is_active` defaulting to `true` and a
freshly generated id. -/
def backfillProfile (nm : AccountRow → String) (now : Nat) (db : DB)
    (a : AccountRow) : StudentProfileRow :=
  { id := freshId db, account_id := a.id, profile_name := nm a,
    last_accessed_at := some now, is_active := true }

/-- The state one backfill iteration reaches when its insert succeeds: the
default profile appended and every still-unmigrated resource row of this
account pointed at it. -/
def backfillApply (nm : AccountRow → String) (now : Nat) (db : DB)
    (a : AccountRow) : DB :=
  { db with
    profiles := db.profiles ++ [backfillProfile nm now db a],
    resources := db.resources.map (fun r =>
      if r.student_profile_id == none && r.user_id == some a.id
      then { r with
        student_profile_id := some (backfillProfile nm now db a).id }
      else r) }

/-- One iteration of the backfill loop: the guarded insert (which raises,
for example, on a unique-name collision with an existing active
`'Student 1'` profile, or at the 10-profile limit), then the per-table
`UPDATE`s. -/
def backfillStep (nm : AccountRow → String) (now : Nat) (db : DB)
    (a : AccountRow) : Except String DB :=
  match insertStudentProfile db.profiles (backfillProfile nm now db a) with
  | .error e => .error e
  | .ok ps =>
    .ok { db with
      profiles := ps,
      resources := db.resources.map (fun r =>
        if r.student_profile_id == none && r.user_id == some a.id
        then { r with
          student_profile_id := some (backfillProfile nm now db a).id }
        else r) }

/-- The loop over a list of accounts; an uncaught raise aborts the run. -/
def backfillRun (nm : AccountRow → String) (now : Nat) :
    List AccountRow → DB → Except String DB
  | [], db => .ok db
  | a :: l, db =>
    match backfillStep nm now db a with
    | .error e => .error e
    | .ok db' => backfillRun nm now l db'

/-- `cold_pond`'s `migrate_existing_data_to_multi_user()`: `FOR
account_record IN SELECT * FROM accounts LOOP` — every account is processed
and a `'Student 1'` insert is attempted unconditionally, so the run raises
whenever some account already holds an active `'Student 1'` profile. -/
def migrate_existing_data_to_multi_user (now : Nat) (db : DB) :
    Except String DB :=
  backfillRun (fun _ => "Student 1") now db.accounts db

/-- `purple_fire`'s `migrate_existing_data_to_student_profiles()`: the
account loop is restricted (via `LEFT JOIN student_profiles ... WHERE sp.id
IS NULL`) to accounts with no student profile at all, and the inserted
profile is named `COALESCE(full_name, 'Student 1')`. -/
def migrate_existing_data_to_student_profiles (now : Nat) (db : DB) :
    Except String DB :=
  backfillRun (fun a => a.full_name.getD "Student 1") now
    (db.accounts.filter
      (fun a => !(db.profiles.any (fun p => p.account_id == a.id)))) db

/-- The database state an invocation of the `cold_pond` procedure leaves:
on an uncaught raise the statement aborts and its transaction rolls back,
restoring the pre-call state. -/
def runMultiUserMigration (now : Nat) (db : DB) : DB :=
  match migrate_existing_data_to_multi_user now db with
  | .ok db' => db'
  | .error _ => db

/-- The database state an invocation of the `purple_fire` procedure leaves,
with the same rollback-on-raise semantics. -/
def runStudentProfilesMigration (now : Nat) (db : DB) : DB :=
  match migrate_existing_data_to_student_profiles now db with
  | .ok db' => db'
  | .error _ => db

theorem backfillStep_ok_elim (nm : AccountRow → String) (now : Nat)
    (db : DB) (a : AccountRow) (db' : DB)
    (h : backfillStep nm now db a = .ok db') :
    db' = backfillApply nm now db a := by
  cases hins : insertStudentProfile db.profiles (backfillProfile nm now db a)
      with
  | error e =>
    simp only [backfillStep, hins] at h
    exact absurd h (by simp)
  | ok ps =>
    have hps := insertStudentProfile_ok_elim db.profiles
      (backfillProfile nm now db a) ps hins
    simp only [backfillStep, hins] at h
    injection h with h
    rw [← h, hps]
    rfl

theorem backfillRun_cons_ok (nm : AccountRow → String) (now : Nat)
    (a : AccountRow) (l : List AccountRow) (db db' : DB)
    (h : backfillRun nm now (a :: l) db = .ok db') :
    backfillStep nm now db a = .ok (backfillApply nm now db a) ∧
      backfillRun nm now l (backfillApply nm now db a) = .ok db' := by
  cases hstep : backfillStep nm now db a with
  | error e =>
    simp only [backfillRun, hstep] at h
    exact absurd h (by simp)
  | ok db₁ =>
    simp only [backfillRun, hstep] at h
    have hd := backfillStep_ok_elim nm now db a db₁ hstep
    subst hd
    exact ⟨rfl, h⟩

theorem backfillRun_accounts (nm : AccountRow → String) (now : Nat) :
    ∀ (l : List AccountRow) (db db' : DB),
      backfillRun nm now l db = .ok db' → db'.accounts = db.accounts := by
  intro l
  induction l with
  | nil =>
    intro db db' h
    injection h with h
    rw [← h]
  | cons a l ih =>
    intro db db' h
    rcases backfillRun_cons_ok nm now a l db db' h with ⟨_, hrest⟩
    rw [ih _ _ hrest]
    rfl

theorem backfillRun_profiles_mono (nm : AccountRow → String) (now : Nat) :
    ∀ (l : List AccountRow) (db db' : DB),
      backfillRun nm now l db = .ok db' →
      ∀ p : StudentProfileRow, p ∈ db.profiles → p ∈ db'.profiles := by
  intro l
  induction l with
  | nil =>
    intro db db' h p hp
    injection h with h
    rw [← h]
    exact hp
  | cons a l ih =>
    intro db db' h p hp
    rcases backfillRun_cons_ok nm now a l db db' h with ⟨_, hrest⟩
    exact ih _ _ hrest p (List.mem_append_left _ hp)

theorem backfillRun_covers (nm : AccountRow → String) (now : Nat) :
    ∀ (l : List AccountRow) (db db' : DB),
      backfillRun nm now l db = .ok db' →
      ∀ a ∈ l, ∃ p ∈ db'.profiles, p.account_id = a.id ∧
        p.profile_name = nm a ∧ p.is_active = true := by
  intro l
  induction l with
  | nil =>
    intro db db' _ a ha
    exact absurd ha (List.not_mem_nil a)
  | cons hd tl ih =>
    intro db db' h a ha
    rcases backfillRun_cons_ok nm now hd tl db db' h with ⟨_, hrest⟩
    rcases List.mem_cons.mp ha with heq | htl
    · subst heq
      have hmem : backfillProfile nm now db a ∈
          (backfillApply nm now db a).profiles := by
        simp [backfillApply]
      exact ⟨_, backfillRun_profiles_mono nm now tl _ db' hrest _ hmem,
        rfl, rfl, rfl⟩
    · exact ih _ _ hrest a htl

theorem backfillApply_resources_getElem (nm : AccountRow → String)
    (now : Nat) (db : DB) (a : AccountRow) (i : Nat) :
    (backfillApply nm now db a).resources[i]? =
      (db.resources[i]?).map (fun r =>
        if r.student_profile_id == none && r.user_id == some a.id
        then { r with
          student_profile_id := some (backfillProfile nm now db a).id }
        else r) := by
  simp [backfillApply, List.getElem?_map]

theorem backfillRun_preserves_some (nm : AccountRow → String) (now : Nat) :
    ∀ (l : List AccountRow) (db db' : DB),
      backfillRun nm now l db = .ok db' →
      ∀ (i : Nat) (r : ResourceRow),
        db.resources[i]? = some r → r.student_profile_id ≠ none →
        db'.resources[i]? = some r := by
  intro l
  induction l with
  | nil =>
    intro db db' h i r hr _
    injection h with h
    rw [← h]
    exact hr
  | cons a l ih =>
    intro db db' h i r hr hsp
    rcases backfillRun_cons_ok nm now a l db db' h with ⟨_, hrest⟩
    refine ih _ _ hrest i r ?_ hsp
    rw [backfillApply_resources_getElem, hr]
    have hcond : (r.student_profile_id == none && r.user_id == some a.id)
        = false := by
      cases hx : r.student_profile_id with
      | none => exact absurd hx hsp
      | some x => simp [hx]
    simp only [Option.map_some']
    rw [ite_false_of_eq_false _ _ _ hcond]

theorem backfillRun_sets_null (nm : AccountRow → String) (now : Nat) :
    ∀ (l : List AccountRow) (db db' : DB),
      backfillRun nm now l db = .ok db' →
      ∀ (i : Nat) (r : ResourceRow) (aid : Nat),
        db.resources[i]? = some r →
        r.student_profile_id = none → r.user_id = some aid →
        aid ∈ l.map AccountRow.id →
        ∃ r' pid, db'.resources[i]? = some r' ∧
          r'.student_profile_id = some pid ∧
          ∃ p, p ∈ db'.profiles ∧ p.id = pid ∧ p.account_id = aid ∧
            ∃ a, a ∈ l ∧ a.id = aid ∧ p.profile_name = nm a := by
  intro l
  induction l with
  | nil =>
    intro db db' _ i r aid _ _ _ hm
    exact absurd hm (by simp)
  | cons hd tl ih =>
    intro db db' h i r aid hr hnull huser hm
    rcases backfillRun_cons_ok nm now hd tl db db' h with ⟨_, hrest⟩
    by_cases haid : aid = hd.id
    · subst haid
      have hstep : (backfillApply nm now db hd).resources[i]? =
          some { r with
            student_profile_id := some (backfillProfile nm now db hd).id } := by
        rw [backfillApply_resources_getElem, hr]
        have hcond : (r.student_profile_id == none && r.user_id == some hd.id)
            = true := by
          simp [hnull, huser]
        simp only [Option.map_some']
        rw [ite_true_of_eq_true _ _ _ hcond]
      have hpres := backfillRun_preserves_some nm now tl _ db' hrest i _
        hstep (by simp)
      have hpmem : backfillProfile nm now db hd ∈
          (backfillApply nm now db hd).profiles := by
        simp [backfillApply]
      refine ⟨_, (backfillProfile nm now db hd).id, hpres, rfl,
        backfillProfile nm now db hd,
        backfillRun_profiles_mono nm now tl _ db' hrest _ hpmem, rfl, rfl,
        hd, List.mem_cons_self _ _, rfl, rfl⟩
    · have hstep : (backfillApply nm now db hd).resources[i]? = some r := by
        rw [backfillApply_resources_getElem, hr]
        have hcond : (r.student_profile_id == none && r.user_id == some hd.id)
            = false := by
          simp [hnull, huser]
          exact haid
        simp only [Option.map_some']
        rw [ite_false_of_eq_false _ _ _ hcond]
      have hm' : aid ∈ tl.map AccountRow.id := by
        rw [List.map_cons] at hm
        rcases List.mem_cons.mp hm with h1 | h2
        · exact absurd h1 haid
        · exact h2
      rcases ih _ db' hrest i r aid hstep hnull huser hm' with
        ⟨r', pid, h1, h2, p, hp, hpid, hacc, a, haintl, haid2, hname⟩
      exact ⟨r', pid, h1, h2, p, hp, hpid, hacc, a,
        List.mem_cons_of_mem _ haintl, haid2, hname⟩

/-- Input for the idempotence witness: one account, no profiles. -/
def c3baseDB : DB :=
  { accounts := [{ id := 1, full_name := none }], profiles := [],
    resources := [] }

/-- The default profile the first `purple_fire` run creates for it. -/
def c3defaultProfile : StudentProfileRow :=
  { id := 1, account_id := 1, profile_name := "Student 1",
    last_accessed_at := some 0, is_active := true }

/-- The state after the first `purple_fire` run on `c3baseDB`. -/
def c3onceDB : DB :=
  { accounts := [{ id := 1, full_name := none }],
    profiles := [c3defaultProfile], resources := [] }

end Jooy

/-- C3: running either migration procedure twice yields the same final
state as running it once.  `purple_fire`'s
`migrate_existing_data_to_student_profiles` is idempotent in the strong
sense: after a successful run, any later run processes no account and
succeeds returning the state unchanged.  `cold_pond`'s
`migrate_existing_data_to_multi_user` preserves the state for a different
reason: its second run's unconditional `'Student 1'` insert violates the
`unique_profile_name_per_account` constraint, raises and aborts, and the
transaction rollback restores the once-migrated state — so no account gets
a new profile inserted and no scoped-resource row's profile reference is
changed on the second run. -/
theorem c3_migration_idempotent :
    (∀ (now now' : Nat) (db db' : DB),
      migrate_existing_data_to_student_profiles now db = .ok db' →
      migrate_existing_data_to_student_profiles now' db' = .ok db') ∧
    (∀ (now : Nat) (db : DB),
      runStudentProfilesMigration now (runStudentProfilesMigration now db) =
        runStudentProfilesMigration now db) ∧
    (∀ (now : Nat) (db : DB),
      runMultiUserMigration now (runMultiUserMigration now db) =
        runMultiUserMigration now db) := by
  have hsp : ∀ (now now' : Nat) (db db' : DB),
      migrate_existing_data_to_student_profiles now db = .ok db' →
      migrate_existing_data_to_student_profiles now' db' = .ok db' := by
    intro now now' db db' hok
    simp only [migrate_existing_data_to_student_profiles] at hok
    have hacc : db'.accounts = db.accounts :=
      backfillRun_accounts _ now _ db db' hok
    have hcover : ∀ a ∈ db.accounts,
        db'.profiles.any (fun p => p.account_id == a.id) = true := by
      intro a ha
      by_cases h : db.profiles.any (fun p => p.account_id == a.id) = true
      · rcases List.any_eq_true.mp h with ⟨p, hp, hpa⟩
        exact List.any_eq_true.mpr
          ⟨p, backfillRun_profiles_mono _ now _ db db' hok p hp, hpa⟩
      · have hmem : a ∈ db.accounts.filter
            (fun a => !(db.profiles.any (fun p => p.account_id == a.id))) :=
          List.mem_filter.mpr ⟨ha, by simp [h]⟩
        rcases backfillRun_covers _ now _ db db' hok a hmem with
          ⟨p, hp, hpa, _, _⟩
        exact List.any_eq_true.mpr ⟨p, hp, by simp [hpa]⟩
    simp only [migrate_existing_data_to_student_profiles]
    rw [hacc]
    have hfilter : db.accounts.filter
        (fun a => !(db'.profiles.any (fun p => p.account_id == a.id)))
        = [] := by
      refine List.filter_eq_nil_iff.mpr ?_
      intro a ha
      simp [hcover a ha]
    rw [hfilter]
    rfl
  refine ⟨hsp, ?_, ?_⟩
  · intro now db
    cases hm : migrate_existing_data_to_student_profiles now db with
    | error e =>
      have h1 : runStudentProfilesMigration now db = db := by
        simp [runStudentProfilesMigration, hm]
      rw [h1]
      exact h1
    | ok db' =>
      have h1 : runStudentProfilesMigration now db = db' := by
        simp [runStudentProfilesMigration, hm]
      rw [h1]
      have h2 := hsp now now db db' hm
      simp [runStudentProfilesMigration, h2]
  · intro now db
    cases hm : migrate_existing_data_to_multi_user now db with
    | error e =>
      have h1 : runMultiUserMigration now db = db := by
        simp [runMultiUserMigration, hm]
      rw [h1]
      exact h1
    | ok db' =>
      have h1 : runMultiUserMigration now db = db' := by
        simp [runMultiUserMigration, hm]
      rw [h1]
      have hacc : db'.accounts = db.accounts := by
        refine backfillRun_accounts (fun _ => "Student 1") now db.accounts
          db db' ?_
        simpa [migrate_existing_data_to_multi_user] using hm
      cases hAcc : db.accounts with
      | nil =>
        have h2 : migrate_existing_data_to_multi_user now db' = .ok db' := by
          simp only [migrate_existing_data_to_multi_user]
          rw [hacc, hAcc]
          rfl
        simp [runMultiUserMigration, h2]
      | cons a rest =>
        have hm' : backfillRun (fun _ => "Student 1") now (a :: rest) db
            = .ok db' := by
          have h3 := hm
          simp only [migrate_existing_data_to_multi_user] at h3
          rwa [hAcc] at h3
        rcases backfillRun_cons_ok _ _ _ _ _ _ hm' with ⟨_, hrest⟩
        have hmem : backfillProfile (fun _ => "Student 1") now db a ∈
            db'.profiles := by
          refine backfillRun_profiles_mono _ now rest _ db' hrest _ ?_
          simp [backfillApply]
        have hdup : nameDuplicate db'.profiles
            (backfillProfile (fun _ => "Student 1") now db' a) = true := by
          refine List.any_eq_true.mpr ⟨_, hmem, ?_⟩
          simp [backfillProfile]
        rcases insertStudentProfile_error_of_dup _ _ hdup with ⟨e, he⟩
        have hrun2 : migrate_existing_data_to_multi_user now db'
            = .error e := by
          simp only [migrate_existing_data_to_multi_user]
          rw [hacc, hAcc]
          simp only [backfillRun, backfillStep, he]
        simp [runMultiUserMigration, hrun2]

/-- Witness for C3: a successful first run on a one-account dataset, after
which a later run (at a different timestamp) succeeds unchanged. -/
theorem c3_migration_idempotent_witness :
    migrate_existing_data_to_student_profiles 0 c3baseDB = .ok c3onceDB ∧
    migrate_existing_data_to_student_profiles 5 c3onceDB = .ok c3onceDB := by
  constructor
  · rfl
  · exact c3_migration_idempotent.1 0 5 c3baseDB c3onceDB rfl

namespace Jooy

/-- A resource row of account 1 not yet migrated. -/
def unmigratedResource : ResourceRow :=
  { id := 10, user_id := some 1, student_profile_id := none }

/-- A resource row already carrying a profile reference. -/
def migratedResource : ResourceRow :=
  { id := 11, user_id := some 1, student_profile_id := some 5 }

/-- Migration input for the backfill witness: one account, no profiles, one
unmigrated resource row and one already-migrated row. -/
def c4exampleDB : DB :=
  { accounts := [{ id := 1, full_name := none }],
    profiles := [],
    resources := [unmigratedResource, migratedResource] }

/-- The default profile the successful `cold_pond` run inserts for it. -/
def c4insertedProfile : StudentProfileRow :=
  { id := 1, account_id := 1, profile_name := "Student 1",
    last_accessed_at := some 0, is_active := true }

/-- The previously null-referenced row after the successful run. -/
def backfilledResource : ResourceRow :=
  { id := 10, user_id := some 1, student_profile_id := some 1 }

/-- The state `migrate_existing_data_to_multi_user 0 c4exampleDB`
reaches. -/
def c4migratedDB : DB :=
  { accounts := [{ id := 1, full_name := none }],
    profiles := [c4insertedProfile],
    resources := [backfilledResource, migratedResource] }

/-- An active `'Student 1'` profile account 1 already holds — the normal
state after the earlier `billowing_mode` backfill or the signup trigger. -/
def preexistingStudent1 : StudentProfileRow :=
  { id := 5, account_id := 1, profile_name := "Student 1",
    last_accessed_at := none, is_active := true }

/-- A state on which the `cold_pond` migration aborts: the unconditional
`'Student 1'` insert collides with `preexistingStudent1`. -/
def c4abortDB : DB :=
  { accounts := [{ id := 1, full_name := none }],
    profiles := [preexistingStudent1],
    resources := [unmigratedResource] }

end Jooy

/-- C4, counterexample: on an account that already holds an active
`'Student 1'` profile, `migrate_existing_data_to_multi_user` raises a
unique-constraint violation and aborts, so after the procedure runs the
resource row with a null profile reference and a legacy reference to that
account still carries no profile reference — contrary to the claim. -/
theorem c4_counterexample :
    migrate_existing_data_to_multi_user 0 c4abortDB =
      .error "duplicate key value violates unique constraint" ∧
    runMultiUserMigration 0 c4abortDB = c4abortDB ∧
    (runMultiUserMigration 0 c4abortDB).resources[0]? =
      some unmigratedResource ∧
    unmigratedResource.student_profile_id = none ∧
    unmigratedResource.user_id = some 1 :=
  ⟨rfl, rfl, rfl, rfl, rfl⟩

/-- C4, amended: after a run of `migrate_existing_data_to_multi_user` that
completes successfully, every resource row that had a null profile
reference and a legacy `user_id` equal to some account's id carries a
(single) profile reference, namely the id of a `'Student 1'` default
profile of that account present in the migrated state, and rows that
already carried a profile reference are left entirely unchanged; a run
that raises (for example when an account already holds an active
`'Student 1'` profile, or is at the 10-profile limit) aborts, rolls back,
and backfills nothing. -/
theorem c4_backfill_correct (now : Nat) (db db' : DB)
    (hok : migrate_existing_data_to_multi_user now db = .ok db')
    (i : Nat) (r : ResourceRow) (hr : db.resources[i]? = some r) :
    (r.student_profile_id ≠ none → db'.resources[i]? = some r) ∧
    (∀ aid, r.student_profile_id = none → r.user_id = some aid →
      aid ∈ db.accounts.map AccountRow.id →
      ∃ r' pid, db'.resources[i]? = some r' ∧
        r'.student_profile_id = some pid ∧
        ∃ p, p ∈ db'.profiles ∧ p.id = pid ∧ p.account_id = aid ∧
          p.profile_name = "Student 1") := by
  simp only [migrate_existing_data_to_multi_user] at hok
  constructor
  · intro h
    exact backfillRun_preserves_some _ now db.accounts db db' hok i r hr h
  · intro aid hnull huser hm
    rcases backfillRun_sets_null (fun _ => "Student 1") now db.accounts db
        db' hok i r aid hr hnull huser hm with
      ⟨r', pid, h1, h2, p, hp, hpid, hacc2, a, _, _, hname⟩
    exact ⟨r', pid, h1, h2, p, hp, hpid, hacc2, hname⟩

/-- Witness for C4 at a concrete dataset on which the run succeeds: the
unmigrated row of account 1 is backfilled with the id of a `'Student 1'`
profile of account 1, and the already-migrated row keeps its reference. -/
theorem c4_backfill_correct_witness :
    migrate_existing_data_to_multi_user 0 c4exampleDB = .ok c4migratedDB ∧
    c4migratedDB.resources[1]? = some migratedResource ∧
    (∃ r' pid, c4migratedDB.resources[0]? = some r' ∧
      r'.student_profile_id = some pid ∧
      ∃ p, p ∈ c4migratedDB.profiles ∧ p.id = pid ∧ p.account_id = 1 ∧
        p.profile_name = "Student 1") := by
  refine ⟨rfl, ?_, ?_⟩
  · exact (c4_backfill_correct 0 c4exampleDB c4migratedDB rfl 1
      migratedResource rfl).1 (by decide)
  · exact (c4_backfill_correct 0 c4exampleDB c4migratedDB rfl 0
      unmigratedResource rfl).2 1 rfl rfl (by decide)

namespace Jooy

/-! ## Session synchronizer, normalized-store variant

`AuthContext.tsx` variant 2 fetches `student_profiles` with
`.eq('account_id', uid).eq('is_active', true)
 .order('last_accessed_at', { ascending: false, nullsFirst: false })`
and resolves the active profile from the fetched list and the
`active_student_profile_id` entry of `localStorage` (lines 699-746). -/

/-- `a` sorts no later than `b` under
`ORDER BY last_accessed_at DESC NULLS LAST`. -/
def mruBefore (a b : StudentProfileRow) : Bool :=
  match a.last_accessed_at, b.last_accessed_at with
  | some x, some y => decide (y ≤ x)
  | some _, none => true
  | none, some _ => false
  | none, none => true

def insertMru (a : StudentProfileRow) :
    List StudentProfileRow → List StudentProfileRow
  | [] => [a]
  | b :: t => if mruBefore a b then a :: b :: t else b :: insertMru a t

/-- The ordering applied by the store to the fetched rows. -/
def mruOrder : List StudentProfileRow → List StudentProfileRow
  | [] => []
  | a :: t => insertMru a (mruOrder t)

/-- The variant-2 profile fetch: the caller's active profiles in
most-recently-accessed order, nulls last. -/
def fetchActiveProfiles (uid : Nat) (ps : List StudentProfileRow) :
    List StudentProfileRow :=
  mruOrder (ps.filter (fun p => p.account_id == uid && p.is_active))

/-- Result of the variant-2 resolution: the selected profile id, the
`localStorage` pointer afterwards, and the `switch_to_profile` RPC calls
issued (which stamp `last_accessed_at`). -/
structure SessionResolution where
  active : Option Nat
  localStore : Option Nat
  switched : List Nat
deriving Repr, DecidableEq

/-- Variant 2's resolution (lines 714-746): if the stored pointer matches a
fetched profile, select it; otherwise clear the pointer and select the first
fetched profile (persisting it locally); with nothing fetched, no profile is
selected.  `stored` is the prior `localStorage` pointer. -/
def resolveSession (uid : Nat) (ps : List StudentProfileRow)
    (stored : Option Nat) : SessionResolution :=
  let fetched := fetchActiveProfiles uid ps
  match stored with
  | some s =>
    match fetched.find? (fun p => p.id == s) with
    | some found =>
      { active := some found.id, localStore := some s, switched := [found.id] }
    | none =>
      match fetched with
      | [] => { active := none, localStore := none, switched := [] }
      | first :: _ =>
        { active := some first.id, localStore := some first.id,
          switched := [first.id] }
  | none =>
    match fetched with
    | [] => { active := none, localStore := none, switched := [] }
    | first :: _ =>
      { active := some first.id, localStore := some first.id,
        switched := [first.id] }

/-- The three-step precedence the specification states for session
resolution: local pointer first, then the server-persisted account-level
preference pointer, then the first profile in most-recently-accessed order.
Written from the spec's words, for comparison with `resolveSession`. -/
def resolveActiveProfileClaim (fetched : List StudentProfileRow)
    (stored serverPref : Option Nat) : Option Nat :=
  match stored.bind (fun s => fetched.find? (fun p => p.id == s)) with
  | some p => some p.id
  | none =>
    match serverPref.bind (fun s => fetched.find? (fun p => p.id == s)) with
    | some p => some p.id
    | none => fetched.head?.map (fun p => p.id)

/-- Profile with `last_accessed_at` null, from the spec's scenario. -/
def profileP1 : StudentProfileRow :=
  { id := 1, account_id := 7, profile_name := "P1",
    last_accessed_at := none, is_active := true }

/-- Profile with `last_accessed_at` set, from the spec's scenario. -/
def profileP2 : StudentProfileRow :=
  { id := 2, account_id := 7, profile_name := "P2",
    last_accessed_at := some 5, is_active := true }

end Jooy

/-- C5, counterexample: with fetched profiles `[P2, P1]` (most recently
accessed first), no local pointer, and the server-persisted preference
pointer naming `P1`, the claimed precedence selects `P1`, but the code's
resolution never consults the server pointer and selects `P2`. -/
theorem c5_counterexample :
    resolveActiveProfileClaim (fetchActiveProfiles 7 [profileP1, profileP2])
        none (some 1) = some 1 ∧
      (resolveSession 7 [profileP1, profileP2] none).active = some 2 := by
  decide

/-- C5, amended: the normalized-store resolution consults only the locally
persisted pointer: if it matches a fetched profile that profile is selected,
otherwise the first profile in most-recently-accessed order (nulls last) is
selected; the server-persisted account-level preference pointer plays no
part.  In the spec's scenario (`P1` never accessed, `P2` accessed, no stored
pointer) `P2` is selected, persisted locally, and stamped. -/
theorem c5_resolution_precedence (uid : Nat) (ps : List StudentProfileRow)
    (stored : Option Nat) :
    ((resolveSession uid ps stored).active =
      (match stored.bind (fun s =>
          (fetchActiveProfiles uid ps).find? (fun p => p.id == s)) with
       | some p => some p.id
       | none => (fetchActiveProfiles uid ps).head?.map (fun p => p.id))) ∧
    resolveSession 7 [profileP1, profileP2] none =
      { active := some 2, localStore := some 2, switched := [2] } := by
  constructor
  · simp only [resolveSession]
    cases stored with
    | none =>
      cases hf : fetchActiveProfiles uid ps with
      | nil => simp [hf]
      | cons a t => simp [hf]
    | some s =>
      cases hfind : (fetchActiveProfiles uid ps).find? (fun p => p.id == s) with
      | some found => simp [hfind]
      | none =>
        cases hf : fetchActiveProfiles uid ps with
        | nil => simp [hfind, hf]
        | cons a t =>
          rw [hf] at hfind
          simp [hf, hfind]
  · decide

namespace Jooy

/-! ## Session synchronizer, preferences-blob variant

Variants 1, 3 and 4 of `AuthContext.tsx` keep the student profiles embedded
in the account row's `preferences` JSON blob and resolve the active profile
from the blob's `activeProfileId` pointer, creating a default profile when
the blob holds none (variant 1 lines 96-137). -/

/-- A student profile as stored in the `preferences` blob (the fields the
resolution logic reads). -/
structure BlobProfile where
  id : Nat
  profile_name : String
  is_active : Bool
deriving Repr, DecidableEq

/-- The `preferences` blob: server-persisted active pointer plus the embedded
profile array. -/
structure AccountPrefs where
  activeProfileId : Option Nat
  studentProfiles : List BlobProfile
deriving Repr, DecidableEq

/-- Outcome of the blob-store resolution: resulting profile list, active
profile, and the `profiles.update({ preferences })` writes issued. -/
structure BlobResolution where
  profiles : List BlobProfile
  active : Option BlobProfile
  writes : List AccountPrefs
deriving Repr, DecidableEq

/-- `profileData.full_name?.split(' ')[0] || 'Student'` — the first word of
the display name (`split(' ')[0]` is the prefix before the first space), or
the generic default when the name is absent or that prefix is the falsy
`''`. -/
def firstWordOrStudent : Option String → String
  | none => "Student"
  | some s =>
    let w := String.mk (s.data.takeWhile (fun c => c != ' '))
    if w = "" then "Student" else w

/-- The default profile the blob-store resolution creates when the account
has no stored profiles (fresh uuid, name from the display name, active). -/
def defaultBlobProfile (fullName : Option String) (freshPid : Nat) :
    BlobProfile :=
  { id := freshPid, profile_name := firstWordOrStudent fullName,
    is_active := true }

/-- The preferences blob persisted when the resolution creates the default
profile: `{ activeProfileId: defaultProfile.id, studentProfiles: [it] }`. -/
def defaultBlobWrite (fullName : Option String) (freshPid : Nat) :
    AccountPrefs :=
  { activeProfileId := some (defaultBlobProfile fullName freshPid).id,
    studentProfiles := [defaultBlobProfile fullName freshPid] }

/-- The blob persisted when the resolution defaults to the first stored
profile: `{ ...userPreferences, activeProfileId: first.id }`. -/
def firstPointerWrite (first : BlobProfile) (rest : List BlobProfile) :
    AccountPrefs :=
  { activeProfileId := some first.id, studentProfiles := first :: rest }

/-- The resolution state after creating the default profile. -/
def defaultBlobResolution (fullName : Option String) (freshPid : Nat) :
    BlobResolution :=
  { profiles := [defaultBlobProfile fullName freshPid],
    active := some (defaultBlobProfile fullName freshPid),
    writes := [defaultBlobWrite fullName freshPid] }

/-- Variant 1's blob resolution: with a non-empty embedded profile list,
select the profile named by `activeProfileId` when it matches, else default
to the first profile and persist that pointer; with no profiles, create one
default profile, select it and persist the new blob. -/
def resolveBlobSession (fullName : Option String)
    (prefs : Option AccountPrefs) (freshPid : Nat) : BlobResolution :=
  match prefs with
  | some up =>
    match up.studentProfiles with
    | [] => defaultBlobResolution fullName freshPid
    | first :: rest =>
      match up.activeProfileId.bind
          (fun aid => (first :: rest).find? (fun p => p.id == aid)) with
      | some p =>
        { profiles := first :: rest, active := some p, writes := [] }
      | none =>
        { profiles := first :: rest, active := some first,
          writes := [firstPointerWrite first rest] }
  | none => defaultBlobResolution fullName freshPid

end Jooy

/-- C6, counterexample: the normalized-store session resolution (variant 2)
of an account with zero active profiles ends with no active profile and no
`switch_to_profile` call — it creates nothing, contradicting the claim that
session resolution never ends without an active profile. -/
theorem c6_counterexample :
    (resolveSession 7 [] none).active = none ∧
      (resolveSession 7 [] none).switched = [] := by
  decide

/-- C6, amended: in the preferences-blob session resolution (variants 1, 3
and 4), an account whose blob holds no profiles gets exactly one default
profile — named from the first word of the account display name, or
`'Student'` — created, persisted to the server, and returned as the active
profile; the normalized-table resolution (variant 2) instead ends with no
active profile, as witnessed by the counterexample. -/
theorem c6_blob_creates_default (fullName : Option String) (freshPid : Nat)
    (prefs : Option AccountPrefs)
    (h : prefs = none ∨ ∃ up, prefs = some up ∧ up.studentProfiles = []) :
    resolveBlobSession fullName prefs freshPid =
      { profiles := [defaultBlobProfile fullName freshPid],
        active := some (defaultBlobProfile fullName freshPid),
        writes := [defaultBlobWrite fullName freshPid] } ∧
    (defaultBlobWrite fullName freshPid).activeProfileId = some freshPid ∧
    (defaultBlobProfile fullName freshPid).profile_name =
      firstWordOrStudent fullName := by
  refine ⟨?_, rfl, rfl⟩
  rcases h with h | ⟨up, hup, hempty⟩
  · subst h
    rfl
  · subst hup
    simp only [resolveBlobSession]
    rw [hempty]
    rfl

/-- Witness for C6: an account named "Ada Lovelace" with an empty profile
blob gets one default profile named "Ada", selected and persisted. -/
theorem c6_blob_creates_default_witness :
    resolveBlobSession (some "Ada Lovelace")
        (some { activeProfileId := some 9, studentProfiles := [] }) 42 =
      { profiles := [defaultBlobProfile (some "Ada Lovelace") 42],
        active := some (defaultBlobProfile (some "Ada Lovelace") 42),
        writes := [defaultBlobWrite (some "Ada Lovelace") 42] } ∧
    (defaultBlobProfile (some "Ada Lovelace") 42).profile_name = "Ada" := by
  constructor
  · exact (c6_blob_creates_default (some "Ada Lovelace") 42
      (some { activeProfileId := some 9, studentProfiles := [] })
      (Or.inr ⟨_, rfl, rfl⟩)).1
  · decide

namespace Jooy

/-! ## Session synchronizer, timeout degradation (variant 4)

Variant 4 of `AuthContext.tsx` bounds the account fetch with a 30-second
timeout (lines 1636-1658).  A fetch that resolves with a timeout-flavoured
error takes the branch at lines 1664-1698: a temporary account object and a
temporary student profile are synthesized locally and set as the state, with
no Supabase write.  The `PGRST116` (row missing) branch attempts to create
the account row, with its own nested fallbacks; any other error nulls the
state (lines 1836-1864 construct a temporary profile but then set the state
to null). -/

/-- Outcome of the nested profile-creation attempt in the `PGRST116` branch;
the `Option String` is the full name the created/temporary profile is named
from. -/
inductive CreateOutcome where
  | userErr : CreateOutcome
  | created : Option String → CreateOutcome
  | createFailed : Option String → CreateOutcome
  | createTimedOut : Option String → CreateOutcome
deriving Repr, DecidableEq

/-- How the bounded account fetch resolved: success with the row's
`full_name` and `preferences`, an error whose message includes `'timeout'`,
`PGRST116` (row not found), or any other error. -/
inductive FetchOutcome where
  | ok : Option String → Option AccountPrefs → FetchOutcome
  | errTimeout : FetchOutcome
  | errNotFound : CreateOutcome → FetchOutcome
  | errOther : FetchOutcome
deriving Repr, DecidableEq

/-- The client auth state variant 4's `fetchAccountAndProfiles` leaves
behind: whether an account object was set, the profile list, the active
profile, and whether any write was issued to the server. -/
structure SyncState where
  accountSet : Bool
  profiles : Option (List BlobProfile)
  active : Option BlobProfile
  wroteServer : Bool
deriving Repr, DecidableEq

/-- The locally synthesized student profile of the fallback branches
(`tempProfile.full_name?.split(' ')[0] || 'Student'`, where the temporary
account's `full_name` is the auth metadata name or `'User'`). -/
def tempStudentProfile (userMetaName : Option String) (freshPid : Nat) :
    BlobProfile :=
  { id := freshPid,
    profile_name := firstWordOrStudent (some (userMetaName.getD "User")),
    is_active := true }

/-- Variant 4's `fetchAccountAndProfiles`, as a function of how the bounded
fetch resolved. -/
def fetchAccountAndProfilesV4 (userMetaName : Option String) (freshPid : Nat)
    (outcome : FetchOutcome) : SyncState :=
  match outcome with
  | .ok fullName prefs =>
    let r := resolveBlobSession fullName prefs freshPid
    { accountSet := true, profiles := some r.profiles, active := r.active,
      wroteServer := !r.writes.isEmpty }
  | .errTimeout =>
    let d := tempStudentProfile userMetaName freshPid
    { accountSet := true, profiles := some [d], active := some d,
      wroteServer := false }
  | .errNotFound c =>
    match c with
    | .userErr =>
      { accountSet := false, profiles := none, active := none,
        wroteServer := false }
    | .created fn =>
      let d := defaultBlobProfile fn freshPid
      { accountSet := true, profiles := some [d], active := some d,
        wroteServer := true }
    | .createFailed fn =>
      let d := defaultBlobProfile fn freshPid
      { accountSet := true, profiles := some [d], active := some d,
        wroteServer := false }
    | .createTimedOut fn =>
      let d := defaultBlobProfile fn freshPid
      { accountSet := true, profiles := some [d], active := some d,
        wroteServer := false }
  | .errOther =>
    { accountSet := false, profiles := none, active := none,
      wroteServer := false }

end Jooy

/-- C7: when the bounded fetch times out, variant 4's synchronizer ends with
a locally synthesized state — account object set and a non-null active
student profile — and issues no server write; no error is surfaced and the
state is not nulled. -/
theorem c7_timeout_degrades_to_transient (userMetaName : Option String)
    (freshPid : Nat) :
    (fetchAccountAndProfilesV4 userMetaName freshPid .errTimeout).accountSet
        = true ∧
    (fetchAccountAndProfilesV4 userMetaName freshPid
        .errTimeout).active =
      some (tempStudentProfile userMetaName freshPid) ∧
    (fetchAccountAndProfilesV4 userMetaName freshPid .errTimeout).wroteServer
        = false := by
  exact ⟨rfl, rfl, rfl⟩

namespace Jooy

/-! ## Profile deletion

Variant 2's `deleteStudentProfile` (lines 1086-1115) issues
`UPDATE student_profiles SET is_active = false WHERE id = profileId AND
account_id = user.id` and reports success; variant 1's (lines 540-582)
rejects when `studentProfiles.length <= 1` and otherwise filters the profile
out of the preferences array. -/

/-- Variant 2's delete: soft-delete by flag, no guard, `{ error: null }`. -/
def deleteStudentProfileNorm (uid pid : Nat)
    (profiles : List StudentProfileRow) :
    List StudentProfileRow × Option String :=
  (profiles.map (fun p =>
    if p.id == pid && p.account_id == uid then { p with is_active := false }
    else p), none)

/-- Variant 1's delete: guard on the count, then physical removal from the
array, repointing the active pointer at the first remaining profile when the
deleted one was active. -/
def deleteStudentProfileBlob (profiles : List BlobProfile)
    (activeId : Option Nat) (pid : Nat) :
    Except String (List BlobProfile × Option Nat) :=
  if profiles.length ≤ 1 then .error "Cannot delete the last profile."
  else
    let kept := profiles.filter (fun p => !(p.id == pid))
    let newActive :=
      if activeId == some pid then kept.head?.map (fun p => p.id)
      else activeId
    .ok (kept, newActive)

/-- The sole active profile of account 7, used to show the normalized-store
delete has no last-profile guard. -/
def soleActiveProfile : StudentProfileRow :=
  { id := 1, account_id := 7, profile_name := "Student 1",
    last_accessed_at := none, is_active := true }

/-- A concrete blob-store profile for exercising the blob-store delete. -/
def blobProfileA : BlobProfile :=
  { id := 1, profile_name := "A", is_active := true }

/-- A second concrete blob-store profile. -/
def blobProfileB : BlobProfile :=
  { id := 2, profile_name := "B", is_active := true }

end Jooy

/-- C8, counterexample: the normalized-store `deleteStudentProfile` applied
to the account's only remaining active profile succeeds (`error: null`)
instead of rejecting, leaving the account with zero active profiles. -/
theorem c8_counterexample :
    (deleteStudentProfileNorm 7 1 [soleActiveProfile]).2 = none ∧
      ((deleteStudentProfileNorm 7 1 [soleActiveProfile]).1.filter
        (fun p => p.is_active)).length = 0 := by
  decide

/-- C8, amended: the normalized-store delete soft-deletes (flips `is_active`
of the matching row, removing nothing and never returning an error), with no
guard for the last remaining active profile; the blob-store delete has the
guard — deleting with at most one profile stored is rejected — but removes
the profile from the array physically rather than flipping a flag. -/
theorem c8_delete_behaviour (uid pid : Nat) (ps : List StudentProfileRow)
    (bs : List BlobProfile) (act : Option Nat) :
    ((deleteStudentProfileNorm uid pid ps).2 = none) ∧
    ((deleteStudentProfileNorm uid pid ps).1.length = ps.length) ∧
    (∀ p, p ∈ ps → p.id = pid → p.account_id = uid →
      { p with is_active := false } ∈ (deleteStudentProfileNorm uid pid ps).1) ∧
    (bs.length ≤ 1 →
      deleteStudentProfileBlob bs act pid =
        .error "Cannot delete the last profile.") ∧
    (1 < bs.length → ∃ kept newAct,
      deleteStudentProfileBlob bs act pid = .ok (kept, newAct) ∧
      kept = bs.filter (fun p => !(p.id == pid))) := by
  refine ⟨rfl, ?_, ?_, ?_, ?_⟩
  · simp [deleteStudentProfileNorm]
  · intro p hp hid hacc
    refine List.mem_map.mpr ⟨p, hp, ?_⟩
    rw [ite_true_of_eq_true _ _ _ (by simp [hid, hacc])]
  · intro h
    simp only [deleteStudentProfileBlob]
    rw [if_pos h]
  · intro h
    simp only [deleteStudentProfileBlob]
    rw [if_neg (by omega)]
    exact ⟨_, _, rfl, rfl⟩

/-- Witness for C8: soft-deleting the sole active profile flips its flag in
place; the blob-store delete rejects on a one-element profile array and on a
two-element array removes the requested profile. -/
theorem c8_delete_behaviour_witness :
    ({ soleActiveProfile with is_active := false } ∈
      (deleteStudentProfileNorm 7 1 [soleActiveProfile]).1) ∧
    deleteStudentProfileBlob [blobProfileA] (some 1) 1 =
      .error "Cannot delete the last profile." ∧
    (∃ kept newAct,
      deleteStudentProfileBlob [blobProfileA, blobProfileB] (some 1) 1 =
        .ok (kept, newAct) ∧
      kept = [blobProfileB]) := by
  refine ⟨?_, ?_, ?_⟩
  · exact (c8_delete_behaviour 7 1 [soleActiveProfile] [] none).2.2.1
      soleActiveProfile (List.mem_singleton.mpr rfl) rfl rfl
  · exact (c8_delete_behaviour 7 1 [] [blobProfileA]
      (some 1)).2.2.2.1 (by decide)
  · rcases (c8_delete_behaviour 7 1 [] [blobProfileA, blobProfileB]
        (some 1)).2.2.2.2 (by decide) with ⟨kept, newAct, heq, hkept⟩
    exact ⟨kept, newAct, heq, by rw [hkept]; decide⟩

namespace Jooy

/-! ## Profile count limit and creation guards

A profile creation is one guarded `INSERT INTO student_profiles`
(`insertStudentProfile` above): `purple_fire`'s
`check_student_profile_limit` BEFORE INSERT trigger — whose `COUNT(*)` has
no `is_active` filter — then the name CHECK constraints and the
`unique_profile_name_per_account` unique index. -/

/-- An active profile of account 7 with the given id and name. -/
def activeNamed (i : Nat) (nm : String) : StudentProfileRow :=
  { id := i, account_id := 7, profile_name := nm,
    last_accessed_at := none, is_active := true }

/-- A soft-deleted profile of the given account. -/
def inactiveProfileFor (acct i : Nat) : StudentProfileRow :=
  { id := i, account_id := acct, profile_name := "Q",
    last_accessed_at := none, is_active := false }

/-- Nine active, distinctly named profiles of account 7 — a state the
unique-name constraint admits. -/
def nineActive : List StudentProfileRow :=
  [activeNamed 1 "P1", activeNamed 2 "P2", activeNamed 3 "P3",
    activeNamed 4 "P4", activeNamed 5 "P5", activeNamed 6 "P6",
    activeNamed 7 "P7", activeNamed 8 "P8", activeNamed 9 "P9"]

/-- Nine active profiles of account 7 plus one soft-deleted one. -/
def nineActiveOneInactive : List StudentProfileRow :=
  nineActive ++ [inactiveProfileFor 7 10]

end Jooy

/-- C9, counterexample: an account with 9 distinctly named active profiles
and one soft-deleted profile — a state the unique constraint admits, as the
`Nodup` conjunct checks — is refused a further (freshly and validly named)
profile, because the trigger counts all 10 rows; the claim says creation
with 9 active profiles succeeds. -/
theorem c9_counterexample :
    (nineActiveOneInactive.map
      (fun p => (p.account_id, p.profile_name, p.is_active))).Nodup ∧
    (nineActiveOneInactive.filter (fun p => p.is_active)).length = 9 ∧
    insertStudentProfile nineActiveOneInactive (activeNamed 11 "P11") =
      .error
        "Maximum number of student profiles (10) reached for this account" := by
  refine ⟨by decide, rfl, rfl⟩

/-- C9, amended: profile creation succeeds iff the account's total profile
count — active and soft-deleted alike — is below 10 *and* the name passes
the CHECK constraints *and* no existing row of the account carries the same
(name, active-flag) pair.  With 9 distinctly named active profiles (and no
others) the 10th, freshly named, succeeds; once 10 rows exist — even when
only 9 are active — creation fails with the limit error, leaving the table
unchanged; a sub-limit creation can still fail on the unique-name or name
CHECK constraints. -/
theorem c9_limit_counts_all_profiles (ps : List StudentProfileRow)
    (newP : StudentProfileRow) :
    (check_student_profile_limit ps newP = true →
      insertStudentProfile ps newP =
        .error
          "Maximum number of student profiles (10) reached for this account") ∧
    (check_student_profile_limit ps newP = false →
      validProfileName newP.profile_name = true →
      nameDuplicate ps newP = false →
      insertStudentProfile ps newP = .ok (ps ++ [newP])) ∧
    (check_student_profile_limit ps newP = false →
      validProfileName newP.profile_name = false →
      insertStudentProfile ps newP =
        .error "new row violates check constraint") ∧
    (check_student_profile_limit ps newP = false →
      validProfileName newP.profile_name = true →
      nameDuplicate ps newP = true →
      insertStudentProfile ps newP =
        .error "duplicate key value violates unique constraint") := by
  refine ⟨?_, ?_, ?_, ?_⟩
  · intro h1
    simp only [insertStudentProfile]
    rw [h1]
    rfl
  · intro h1 h2 h3
    simp only [insertStudentProfile]
    rw [h1, h2, h3]
    rfl
  · intro h1 h2
    simp only [insertStudentProfile]
    rw [h1, h2]
    rfl
  · intro h1 h2 h3
    simp only [insertStudentProfile]
    rw [h1, h2, h3]
    rfl

/-- Witness for C9: with 9 distinctly named active profiles the freshly
named 10th insert succeeds; with those 9 plus a soft-deleted row it is
rejected at the limit; and a sub-limit insert reusing an active name is
rejected by the unique constraint. -/
theorem c9_limit_counts_all_profiles_witness :
    insertStudentProfile nineActive (activeNamed 10 "P10") =
      .ok (nineActive ++ [activeNamed 10 "P10"]) ∧
    insertStudentProfile nineActiveOneInactive (activeNamed 11 "P11") =
      .error
        "Maximum number of student profiles (10) reached for this account" ∧
    insertStudentProfile nineActive (activeNamed 10 "P3") =
      .error "duplicate key value violates unique constraint" := by
  refine ⟨?_, ?_, ?_⟩
  · exact (c9_limit_counts_all_profiles nineActive
      (activeNamed 10 "P10")).2.1 (by decide) (by decide) (by decide)
  · exact (c9_limit_counts_all_profiles nineActiveOneInactive
      (activeNamed 11 "P11")).1 (by decide)
  · exact (c9_limit_counts_all_profiles nineActive
      (activeNamed 10 "P3")).2.2.2 (by decide) (by decide) (by decide)

namespace Jooy

/-! ## Account bootstrap

`billowing_mode` step 10 leaves `handle_new_user` (the `on_auth_user_created`
trigger on `auth.users`) as: insert the `accounts` row, insert the default
`student_profiles` row named from `raw_user_meta_data->>'initial_profile_name'`,
and `EXCEPTION WHEN OTHERS THEN RAISE WARNING ...; RETURN NEW`.  When the
handler catches an error, PL/pgSQL rolls back every database change made
inside the block — the `accounts` insert included — while `RETURN NEW` lets
the `auth.users` insert complete. -/

/-- State touched by the signup bootstrap, plus a count of raised warnings. -/
structure SignupState where
  users : List Nat
  accounts : List AccountRow
  profiles : List StudentProfileRow
  warnings : Nat
deriving Repr, DecidableEq

/-- The `accounts` row `handle_new_user` inserts
(`full_name = COALESCE(raw_user_meta_data->>'full_name', '')`). -/
def bootstrapAccount (newUserId : Nat) (fullName : Option String) :
    AccountRow :=
  { id := newUserId, full_name := some (fullName.getD "") }

/-- The default profile `handle_new_user` inserts
(`COALESCE(raw_user_meta_data->>'initial_profile_name', 'Student 1')`). -/
def signupProfile (newUserId freshPid : Nat)
    (initialProfileName : Option String) : StudentProfileRow :=
  { id := freshPid, account_id := newUserId,
    profile_name := initialProfileName.getD "Student 1",
    last_accessed_at := none, is_active := true }

/-- The `handle_new_user` trigger body.  `profileInsertFails` says whether
the `student_profiles` insert raises; in that case the exception handler
rolls the block back to its entry state, raises a warning and returns NEW. -/
def handle_new_user (newUserId : Nat)
    (fullName initialProfileName : Option String) (freshPid : Nat)
    (profileInsertFails : Bool) (st : SignupState) : SignupState :=
  if profileInsertFails then
    { st with warnings := st.warnings + 1 }
  else
    { st with
      accounts := st.accounts ++ [bootstrapAccount newUserId fullName],
      profiles := st.profiles ++
        [signupProfile newUserId freshPid initialProfileName] }

/-- A signup: the `auth.users` insert, then the `on_auth_user_created`
trigger.  The trigger returning NEW (instead of re-raising) means the user
insert stands even when the handler caught an error. -/
def signup (newUserId : Nat) (fullName initialProfileName : Option String)
    (freshPid : Nat) (profileInsertFails : Bool) (st : SignupState) :
    SignupState :=
  handle_new_user newUserId fullName initialProfileName freshPid
    profileInsertFails { st with users := st.users ++ [newUserId] }

/-- The empty pre-signup state. -/
def emptySignupState : SignupState :=
  { users := [], accounts := [], profiles := [], warnings := 0 }

end Jooy

/-- C10, counterexample: when the default-profile insert fails, the caught
exception rolls the trigger block back, so the new user ends with no
`accounts` row at all — the account insert *is* rolled back, contrary to the
claim — even though the signup itself completes and a warning is raised. -/
theorem c10_counterexample :
    (signup 7 (some "Ada") none 1 true emptySignupState).users = [7] ∧
    (signup 7 (some "Ada") none 1 true emptySignupState).accounts = [] ∧
    (signup 7 (some "Ada") none 1 true emptySignupState).warnings = 1 := by
  decide

/-- C10, amended: a failure of the default-profile insert is logged (one
warning) and is not propagated — the `auth.users` signup still completes —
but the exception handler's block rollback removes the account insert too:
the failing signup leaves `accounts` and `student_profiles` exactly as they
were.  A signup whose profile insert succeeds appends both the account row
and the default profile. -/
theorem c10_bootstrap_containment (newUserId freshPid : Nat)
    (fullName initialProfileName : Option String) (st : SignupState) :
    ((signup newUserId fullName initialProfileName freshPid true st).users
        = st.users ++ [newUserId] ∧
      (signup newUserId fullName initialProfileName freshPid true st).accounts
        = st.accounts ∧
      (signup newUserId fullName initialProfileName freshPid true st).profiles
        = st.profiles ∧
      (signup newUserId fullName initialProfileName freshPid true st).warnings
        = st.warnings + 1) ∧
    ((signup newUserId fullName initialProfileName freshPid false st).users
        = st.users ++ [newUserId] ∧
      (signup newUserId fullName initialProfileName freshPid false st).accounts
        = st.accounts ++ [bootstrapAccount newUserId fullName] ∧
      (signup newUserId fullName initialProfileName freshPid false st).profiles
        = st.profiles ++ [signupProfile newUserId freshPid initialProfileName] ∧
      (signup newUserId fullName initialProfileName freshPid false st).warnings
        = st.warnings) := by
  exact ⟨⟨rfl, rfl, rfl, rfl⟩, ⟨rfl, rfl, rfl, rfl⟩⟩
